import Mathlib

/-!
Verification of the TuneWithMe room-state synchronization core.

The definitions below are a shallow embedding of the backend source:
`src/backend/src/services/spotify.ts` (the `SpotifyService` playback client
and the `HostPollerService` poller/supervisor),
`src/backend/src/websocket/index.ts` (the `WebSocketManager` connection
registry and broadcaster), and the `RedisService` state store
(`services/redis.ts`): its `room:` hashes, playback keys and pub/sub
listener bookkeeping.  JavaScript `Map`s are embedded as association lists
keyed by `String`, `Set`s as duplicate-free `String` lists kept in
insertion order, Redis hashes as records of optional fields, and each
remaining external call (Spotify API, `ws.send`, the awaited subscribe)
becomes either an explicit environment input or an emitted effect.
-/

namespace TuneWithMe

/-! ### Association-list helpers (embedding of JS `Map`) -/

def lookupKey {α : Type} : List (String × α) → String → Option α
  | [], _ => none
  | (k', v) :: rest, k => if k' = k then some v else lookupKey rest k

def setKey {α : Type} : List (String × α) → String → α → List (String × α)
  | [], k, v => [(k, v)]
  | (k', v') :: rest, k, v =>
      if k' = k then (k, v) :: rest else (k', v') :: setKey rest k v

def eraseKey {α : Type} : List (String × α) → String → List (String × α)
  | [], _ => []
  | (k', v) :: rest, k =>
      if k' = k then eraseKey rest k else (k', v) :: eraseKey rest k

theorem lookupKey_setKey_self {α : Type} (l : List (String × α)) (k : String) (v : α) :
    lookupKey (setKey l k v) k = some v := by
  induction l with
  | nil => simp [setKey, lookupKey]
  | cons p rest ih =>
      obtain ⟨k', v'⟩ := p
      by_cases h : k' = k
      · simp [setKey, h, lookupKey]
      · simp [setKey, h, lookupKey, ih]

theorem lookupKey_setKey_other {α : Type} (l : List (String × α)) (k k' : String) (v : α)
    (h : k' ≠ k) : lookupKey (setKey l k v) k' = lookupKey l k' := by
  induction l with
  | nil => simp [setKey, lookupKey, Ne.symm h]
  | cons p rest ih =>
      obtain ⟨k₀, v₀⟩ := p
      by_cases hk : k₀ = k
      · subst hk
        simp [setKey, lookupKey, Ne.symm h]
      · simp only [setKey, if_neg hk, lookupKey]
        by_cases hk' : k₀ = k'
        · simp [hk']
        · simp [hk', ih]

theorem lookupKey_eraseKey_self {α : Type} (l : List (String × α)) (k : String) :
    lookupKey (eraseKey l k) k = none := by
  induction l with
  | nil => simp [eraseKey, lookupKey]
  | cons p rest ih =>
      obtain ⟨k', v'⟩ := p
      by_cases h : k' = k
      · simpa [eraseKey, h] using ih
      · simpa [eraseKey, h, lookupKey] using ih

theorem lookupKey_eraseKey_other {α : Type} (l : List (String × α)) (k k' : String)
    (h : k' ≠ k) : lookupKey (eraseKey l k) k' = lookupKey l k' := by
  induction l with
  | nil => simp [eraseKey, lookupKey]
  | cons p rest ih =>
      obtain ⟨k₀, v₀⟩ := p
      by_cases hk : k₀ = k
      · subst hk
        simp [eraseKey, lookupKey, Ne.symm h, ih]
      · simp only [eraseKey, if_neg hk, lookupKey]
        by_cases hk' : k₀ = k'
        · simp [hk']
        · simp [hk', ih]

/-! ### Data model (`src/backend/src/types/index.ts`) -/

/-- `SpotifyTokens`: access/refresh token pair with absolute expiry (ms). -/
structure SpotifyTokens where
  access_token : String
  refresh_token : String
  expires_at : Nat
deriving DecidableEq, Repr

/-- `SpotifyTrack` as built by `SpotifyService` from the raw API item. -/
structure SpotifyTrack where
  uri : String
  isrc : Option String
  name : String
  artist : String
  album : String
  duration_ms : Nat
  album_art_url : Option String
deriving DecidableEq, Repr

/-- `PlaybackState` as produced by `SpotifyService.getCurrentPlaybackState`. -/
structure PlaybackState where
  track : Option SpotifyTrack
  is_playing : Bool
  position_ms : Nat
  duration_ms : Nat
  context_uri : Option String
  updated_at : Nat
deriving DecidableEq, Repr

/-! ### State store (`RedisService`, services/redis.ts) -/

/-- The per-room Redis hash at key `room:` + roomId, restricted to the two
fields the poller core reads and writes.  A hash holds only the fields that
have been set, so each field is optional; the JSON round-trip the source
applies to `host_tokens` is taken as the identity. -/
structure RoomRecord where
  is_active : Option Bool
  host_tokens : Option SpotifyTokens
deriving DecidableEq, Repr

/-- A hash with no fields set yet (`hSet` on an absent key starts here). -/
def emptyRoomRecord : RoomRecord := { is_active := none, host_tokens := none }

/-- `RedisService` keyed storage: `rooms` are the `room:` + roomId hashes
(`hSet` / `hGetAll`), `playback` the `room:` + roomId + `:playback` string
keys written by `updatePlaybackState` (a plain `set` with a 5-minute TTL)
and read by `getPlaybackState`.  A key that expired or was never written is
simply absent from the list. -/
structure StateStore where
  rooms : List (String × RoomRecord)
  playback : List (String × PlaybackState)
deriving DecidableEq, Repr

/-- `redis.updateRoom` with `is_active: false`: `hSet` merges the field into
the room's hash, creating the hash when the key is absent. -/
def storeMarkInactive (s : StateStore) (roomId : String) : StateStore :=
  let r := (lookupKey s.rooms roomId).getD emptyRoomRecord
  { s with rooms := setKey s.rooms roomId { r with is_active := some false } }

/-- `redis.updateRoom` with `host_tokens` set to the refreshed pair: `hSet`
merges the field, creating the hash when the key is absent. -/
def storeSetHostTokens (s : StateStore) (roomId : String) (t : SpotifyTokens) : StateStore :=
  let r := (lookupKey s.rooms roomId).getD emptyRoomRecord
  { s with rooms := setKey s.rooms roomId { r with host_tokens := some t } }

/-- The `host_tokens` field of the room's hash, `none` when the hash or the
field is absent. -/
def storedHostTokens (s : StateStore) (roomId : String) : Option SpotifyTokens :=
  (lookupKey s.rooms roomId).bind RoomRecord.host_tokens

/-- The `is_active` field of the room's hash, `none` when the hash or the
field is absent. -/
def storedIsActive (s : StateStore) (roomId : String) : Option Bool :=
  (lookupKey s.rooms roomId).bind RoomRecord.is_active

/-! ### Upstream playback client (`SpotifyService`, services/spotify.ts) -/

/-- Raw outcome of one `getMyCurrentPlaybackState` API call: the call throws,
returns a body without an item, or returns a track item (already shaped as
the `PlaybackState` that `SpotifyService` builds from it). -/
inductive UpstreamOutcome where
  | apiError : UpstreamOutcome
  | noItem : UpstreamOutcome
  | item : PlaybackState → UpstreamOutcome
deriving DecidableEq, Repr

/-- `SpotifyService.getCurrentPlaybackState` (spotify.ts:123-154): returns the
read state when a track item is present, `none` when no item is playing, and
also `none` when the API call throws — the catch block logs the error and
returns `null`, so an upstream failure is indistinguishable from absent
playback for the caller. -/
def getCurrentPlaybackState : UpstreamOutcome → Option PlaybackState
  | .apiError => none
  | .noItem => none
  | .item s => some s

/-! ### Host poller (`HostPollerService`, services/spotify.ts) -/

/-- `ActiveRoom` (hostPoller): per-room poller bookkeeping.  The live
`pollInterval` timer is modelled by the entry's presence in the
`activeRooms` map; `removeRoom` clears the timer and deletes the entry. -/
structure ActiveRoom where
  roomId : String
  hostTokens : SpotifyTokens
  lastState : Option PlaybackState
  consecutiveErrors : Nat
deriving DecidableEq, Repr

/-- The poller service's mutable state together with the shared state store. -/
structure PollerState where
  activeRooms : List (String × ActiveRoom)
  store : StateStore
deriving DecidableEq, Repr

/-- A `NOW_PLAYING` broadcast issued by a tick
(`wsManager.broadcastNowPlaying roomId state`). -/
inductive PollEvent where
  | nowPlaying : String → PlaybackState → PollEvent
deriving DecidableEq, Repr

/-- Environment of one tick: the wall clock, the raw upstream outcome, whether
`redis.updatePlaybackState` throws on this tick, and the outcome of
`SpotifyService.refreshTokens` if a refresh is attempted. -/
structure TickEnv where
  now : Nat
  upstream : UpstreamOutcome
  storeFails : Bool
  refreshResult : Option SpotifyTokens
deriving DecidableEq, Repr

/-- `HostPollerService.hasStateChanged` (spotify.ts:551-573): track uri
differs, play/pause flag differs, or the raw position difference exceeds
2000 ms.  No elapsed-time adjustment is applied. -/
def hasStateChanged (oldState : Option PlaybackState) (newState : PlaybackState) : Bool :=
  match oldState with
  | none => true
  | some old =>
    if old.track.map SpotifyTrack.uri ≠ newState.track.map SpotifyTrack.uri then true
    else if old.is_playing ≠ newState.is_playing then true
    else
      let positionDiff := ((old.position_ms : Int) - (newState.position_ms : Int)).natAbs
      if positionDiff > 2000 then true else false

/-- `HostPollerService.removeRoom`: clear the room's interval timer and drop
it from the active map. -/
def removeRoom (st : PollerState) (roomId : String) : PollerState :=
  { st with activeRooms := eraseKey st.activeRooms roomId }

/-- `HostPollerService.refreshHostTokens` (spotify.ts:528-549): on refresh
success persist the new tokens to the store and into the local `ActiveRoom`;
on failure stop polling the room and mark it inactive. -/
def refreshHostTokens (env : TickEnv) (roomId : String) (activeRoom : ActiveRoom)
    (st : PollerState) : PollerState :=
  match env.refreshResult with
  | some newTokens =>
      { st with
          store := storeSetHostTokens st.store roomId newTokens,
          activeRooms :=
            setKey st.activeRooms roomId { activeRoom with hostTokens := newTokens } }
  | none =>
      let st' := removeRoom st roomId
      { st' with store := storeMarkInactive st'.store roomId }

/-- The catch block of `HostPollerService.pollRoom` (spotify.ts:509-525):
increment the room's consecutive-error counter; at 5 stop polling the room
and mark it inactive. -/
def pollRoomCatch (st : PollerState) (roomId : String) : PollerState :=
  match lookupKey st.activeRooms roomId with
  | none => st
  | some activeRoom =>
    let errs := activeRoom.consecutiveErrors + 1
    if errs ≥ 5 then
      let st' := removeRoom st roomId
      { st' with store := storeMarkInactive st'.store roomId }
    else
      { st with activeRooms :=
          setKey st.activeRooms roomId { activeRoom with consecutiveErrors := errs } }

/-- `HostPollerService.pollRoom` (spotify.ts:454-526).  Returns the new
service/store state and the list of `NOW_PLAYING` broadcasts the tick
issued.  The only awaited calls that can throw inside the try block are the
store writes (`redis.updatePlaybackState`), routed to the catch block via
`env.storeFails`; `getCurrentPlaybackState` and `refreshHostTokens` catch
their own errors. -/
def pollRoom (env : TickEnv) (roomId : String) (st : PollerState) :
    PollerState × List PollEvent :=
  match lookupKey st.activeRooms roomId with
  | none => (st, [])
  | some activeRoom =>
    if env.now ≥ activeRoom.hostTokens.expires_at then
      (refreshHostTokens env roomId activeRoom st, [])
    else
      match getCurrentPlaybackState env.upstream with
      | some currentState =>
          if hasStateChanged activeRoom.lastState currentState then
            if env.storeFails then (pollRoomCatch st roomId, [])
            else
              let store' := { st.store with
                playback := setKey st.store.playback roomId currentState }
              let activeRoom' := { activeRoom with
                lastState := some currentState, consecutiveErrors := 0 }
              ({ st with
                  store := store',
                  activeRooms := setKey st.activeRooms roomId activeRoom' },
               [PollEvent.nowPlaying roomId currentState])
          else (st, [])
      | none =>
          match activeRoom.lastState with
          | some lastState =>
              if lastState.is_playing then
                let stoppedState := { lastState with
                  is_playing := false, updated_at := env.now }
                if env.storeFails then (pollRoomCatch st roomId, [])
                else
                  let store' := { st.store with
                    playback := setKey st.store.playback roomId stoppedState }
                  let activeRoom' := { activeRoom with lastState := some stoppedState }
                  ({ st with
                      store := store',
                      activeRooms := setKey st.activeRooms roomId activeRoom' },
                   [PollEvent.nowPlaying roomId stoppedState])
              else (st, [])
          | none => (st, [])

/-- `HostPollerService.addRoom` (spotify.ts:367-393): stop any existing
poller for the room, insert a fresh `ActiveRoom` with no last state and a
zero error counter, then run an initial poll. -/
def addRoom (env : TickEnv) (st : PollerState) (roomId : String)
    (hostTokens : SpotifyTokens) : PollerState × List PollEvent :=
  let st₁ := if (lookupKey st.activeRooms roomId).isSome then removeRoom st roomId else st
  let st₂ := { st₁ with
      activeRooms := setKey st₁.activeRooms roomId
        { roomId := roomId, hostTokens := hostTokens,
          lastState := none, consecutiveErrors := 0 } }
  pollRoom env roomId st₂

/-- `HostPollerService.getActiveRoomIds` (spotify.ts:438-452): the body
declares an empty list and returns it unconditionally — no store query is
made, although the comment says rooms will be checked. -/
def getActiveRoomIds : List String := []

/-- `HostPollerService.pollActiveRooms` (spotify.ts:408-436): one supervisor
reconciliation pass — remove pollers whose room id is not in
`getActiveRoomIds`, then start a poller for every listed room that lacks one
and has a stored record with host tokens. -/
def pollActiveRooms (env : TickEnv) (st : PollerState) : PollerState × List PollEvent :=
  let activeRoomIds := getActiveRoomIds
  let st₁ := (st.activeRooms.map Prod.fst).foldl
    (fun acc roomId => if roomId ∈ activeRoomIds then acc else removeRoom acc roomId) st
  activeRoomIds.foldl
    (fun acc roomId =>
      if (lookupKey acc.1.activeRooms roomId).isSome then acc
      else
        match lookupKey acc.1.store.rooms roomId with
        | some room =>
            match room.host_tokens with
            | some hostTokens =>
                let r := addRoom env acc.1 roomId hostTokens
                (r.1, acc.2 ++ r.2)
            | none => acc
        | none => acc)
    (st₁, [])

/-- The room ids the state store marks active — the set the spec says the
supervisor must reconcile the poller set against. -/
def storeActiveRoomIds (s : StateStore) : List String :=
  (s.rooms.filter (fun p => p.2.is_active = some true)).map Prod.fst

/-- Modelled from the spec: the change-detection policy as the specification
words it (§4.1), for comparison with the source's `hasStateChanged` — the
position is compared against where it would be expected given the
wall-clock time elapsed since the last observation. -/
def specExpectedPosition (old : PlaybackState) (now : Nat) : Nat :=
  if old.is_playing then old.position_ms + (now - old.updated_at) else old.position_ms

/-- Modelled from the spec: a new observation is flagged as changed when the
track identity differs, the playing flag differs, or the position is more
than 2000 ms away from the expected position. -/
def specHasStateChanged (oldState : Option PlaybackState) (newState : PlaybackState)
    (now : Nat) : Bool :=
  match oldState with
  | none => true
  | some old =>
    decide (old.track.map SpotifyTrack.uri ≠ newState.track.map SpotifyTrack.uri) ||
    decide (old.is_playing ≠ newState.is_playing) ||
    decide (((specExpectedPosition old now : Int) - (newState.position_ms : Int)).natAbs > 2000)

/-! ### Connection registry / broadcaster (`WebSocketManager`, websocket/index.ts) -/

inductive Role where
  | host : Role
  | viewer : Role
deriving DecidableEq, Repr

/-- `WebSocketConnection`: the registry's per-connection record.  The `ws`
handle is embedded by its observable behavior: `readyState` (1 = OPEN) and
whether a `ws.send` call on it succeeds (`sendOk`). -/
structure WsConn where
  id : String
  roomId : String
  userId : String
  role : Role
  readyState : Nat
  sendOk : Bool
deriving DecidableEq, Repr

/-- Outbound messages the registry writes to sockets, with the payload
fields the handlers actually fill in. -/
inductive WsMessage where
  | connected : String → String → WsMessage
  | nowPlaying : PlaybackState → WsMessage
  | control : String → String → WsMessage
  | memberLeave : String → String → WsMessage
deriving DecidableEq, Repr

/-- Externally visible calls a handler makes: a `ws.send` to one connection,
a `ws.close` on one connection, or a Redis pub/sub subscribe/unsubscribe
call for a room's channel. -/
inductive WsEffect where
  | send : String → WsMessage → WsEffect
  | closeConn : String → WsEffect
  | subscribeRoom : String → WsEffect
  | unsubscribeRoom : String → WsEffect
deriving DecidableEq, Repr

/-- `WebSocketManager` state plus the subscriber side of `RedisService`
(services/redis.ts): the `connections` map, the per-room `roomConnections`
sets (duplicate-free lists in insertion order), and `subscribers` — for
each room channel, how many listeners `redis.subscribeToRoom` has
registered on it.  `subscriber.subscribe('room:' + roomId, cb)` installs a
fresh callback closure per call, so repeated calls accumulate listeners;
`unsubscribeFromRoom` drops the whole channel subscription. -/
structure WsState where
  connections : List (String × WsConn)
  roomConnections : List (String × List String)
  subscribers : List (String × Nat)
deriving DecidableEq, Repr

def wsInit : WsState := ⟨[], [], []⟩

/-- JS `Set.add`: append when absent, keep insertion order. -/
def addToSet (l : List String) (x : String) : List String :=
  if x ∈ l then l else l ++ [x]

/-- `RedisService.subscribeToRoom`: one more listener on the room's
channel. -/
def addListener (subs : List (String × Nat)) (roomId : String) : List (String × Nat) :=
  setKey subs roomId ((lookupKey subs roomId).getD 0 + 1)

/-- How many pub/sub listeners the room's channel currently has; the room's
"subscription exists" exactly when this is positive. -/
def listenersFor (st : WsState) (roomId : String) : Nat :=
  (lookupKey st.subscribers roomId).getD 0

/-- The authenticated path of `WebSocketManager.handleConnection`
(websocket/index.ts:27-104).  The connection is stored in both maps (lines
47-53) before `redis.subscribeToRoom` is awaited (line 56) — on every
registration, without checking whether the room already had a connection.
`subscribeOk` is whether that await resolves: on success one more listener
is registered on the room's channel and the CONNECTED welcome is sent
(line 63); on rejection the surrounding catch (line 100) logs and closes
the socket, but the close handler (line 90) was never attached, so the
already-registered connection is not cleaned up. -/
def handleConnection (st : WsState) (conn : WsConn) (subscribeOk : Bool) :
    WsState × List WsEffect :=
  let connections' := setKey st.connections conn.id conn
  let roomIds :=
    match lookupKey st.roomConnections conn.roomId with
    | none => addToSet [] conn.id
    | some ids => addToSet ids conn.id
  if subscribeOk then
    ({ connections := connections',
       roomConnections := setKey st.roomConnections conn.roomId roomIds,
       subscribers := addListener st.subscribers conn.roomId },
     [WsEffect.subscribeRoom conn.roomId,
      WsEffect.send conn.id (WsMessage.connected conn.id conn.roomId)])
  else
    ({ connections := connections',
       roomConnections := setKey st.roomConnections conn.roomId roomIds,
       subscribers := st.subscribers },
     [WsEffect.subscribeRoom conn.roomId, WsEffect.closeConn conn.id])

/-- Registry and subscription bookkeeping of
`WebSocketManager.handleDisconnection` (websocket/index.ts:211-257): drop the
connection, remove it from its room's set, and when the set becomes empty
delete the set and unsubscribe the room's channel, dropping all its
listeners.  The trailing fire-and-forget MEMBER_LEAVE broadcast mutates the
registry only by disconnecting further failing connections, which is again
this function. -/
def handleDisconnection (st : WsState) (connectionId : String) : WsState :=
  match lookupKey st.connections connectionId with
  | none => st
  | some conn =>
    let connections' := eraseKey st.connections connectionId
    match lookupKey st.roomConnections conn.roomId with
    | none => { st with connections := connections' }
    | some ids =>
      let ids' := ids.filter (fun cid => cid ≠ connectionId)
      if ids' = [] then
        { connections := connections',
          roomConnections := eraseKey st.roomConnections conn.roomId,
          subscribers := eraseKey st.subscribers conn.roomId }
      else
        { st with
            connections := connections',
            roomConnections := setKey st.roomConnections conn.roomId ids' }

/-- Whether the send loop of `broadcastToRoom` delivers to this connection
id: the record exists, its socket is OPEN, and `ws.send` does not throw. -/
def connectionDelivers (st : WsState) (cid : String) : Bool :=
  match lookupKey st.connections cid with
  | some c => c.readyState == 1 && c.sendOk
  | none => false

/-- `WebSocketManager.broadcastToRoom` (websocket/index.ts:177-209): write the
event to every registered connection of the room whose socket is OPEN,
collecting every other registered id as disconnected — a send failure only
marks that connection, it does not stop the loop — then clean the
disconnected ids up via `handleDisconnection`. -/
def broadcastToRoom (st : WsState) (roomId : String) (message : WsMessage) :
    WsState × List WsEffect :=
  match lookupKey st.roomConnections roomId with
  | none => (st, [])
  | some ids =>
    let delivered := ids.filter (fun cid => connectionDelivers st cid)
    let disconnected := ids.filter (fun cid => !(connectionDelivers st cid))
    (disconnected.foldl handleDisconnection st,
     delivered.map (fun cid => WsEffect.send cid message))

/-- `WebSocketManager.handleControlMessage` (websocket/index.ts:154-175): a
non-host sender is dropped with a log record — no effect, no state change,
the connection is not closed; a host's message is re-broadcast to the whole
room. -/
def handleControlMessage (st : WsState) (conn : WsConn) (action : String)
    (data : String) : WsState × List WsEffect :=
  if conn.role ≠ Role.host then (st, [])
  else broadcastToRoom st conn.roomId (WsMessage.control action data)

/-- `WebSocketManager.handleSyncRequest` (websocket/index.ts:130-152): read
the room's persisted playback state via `RedisService.getPlaybackState`
(services/redis.ts) — a `get` of the room's playback key, `null` when the
key is absent or its 5-minute TTL has expired — and, only when one is
present, send a NOW_PLAYING reply to the requesting connection.  The
registry state is not touched and no other connection is written to. -/
def handleSyncRequest (_st : WsState) (store : StateStore) (conn : WsConn) :
    List WsEffect :=
  match lookupKey store.playback conn.roomId with
  | some playbackState => [WsEffect.send conn.id (WsMessage.nowPlaying playbackState)]
  | none => []

/-- Registry states reachable through the two operations that mutate the
registry — an authenticated connection registering and a disconnection —
in runs where every `subscribeToRoom` call resolves successfully. -/
inductive ReachableOk : WsState → Prop where
  | init : ReachableOk wsInit
  | connect (st : WsState) (conn : WsConn) :
      ReachableOk st → ReachableOk (handleConnection st conn true).1
  | disconnect (st : WsState) (cid : String) :
      ReachableOk st → ReachableOk (handleDisconnection st cid)

/-- The spec's subscription-lifecycle invariant: a room's pub/sub channel
has at least one listener iff the room's connection set exists and is
nonempty. -/
def SubscriptionInvariant (st : WsState) : Prop :=
  ∀ roomId : String,
    0 < listenersFor st roomId ↔
      ∃ ids, lookupKey st.roomConnections roomId = some ids ∧ ids ≠ []

/-! ### Concrete fixtures used by counterexamples and witnesses -/

def trackA : SpotifyTrack :=
  { uri := "spotify:track:a", isrc := none, name := "Track A", artist := "Artist",
    album := "Album", duration_ms := 200000, album_art_url := none }

/-- Observation at tick 1: track A playing at position 0. -/
def stateA0 : PlaybackState :=
  { track := some trackA, is_playing := true, position_ms := 0, duration_ms := 200000,
    context_uri := none, updated_at := 0 }

/-- Observation 5 s later: track A still playing, position advanced exactly
by the elapsed wall-clock time. -/
def stateA5 : PlaybackState :=
  { stateA0 with position_ms := 5000, updated_at := 5000 }

/-- Observation 1 s after `stateA0`: position advanced by the elapsed time,
within the raw 2000 ms tolerance. -/
def stateA1 : PlaybackState :=
  { stateA0 with position_ms := 1000, updated_at := 1000 }

def tokensOk : SpotifyTokens :=
  { access_token := "at", refresh_token := "rt", expires_at := 1000000000 }

def roomA : ActiveRoom :=
  { roomId := "r1", hostTokens := tokensOk, lastState := some stateA0,
    consecutiveErrors := 0 }

/-- One active room "r1", marked active in the store, with a running poller
whose last observation is `stateA0`. -/
def st0 : PollerState :=
  { activeRooms := [("r1", roomA)],
    store := { rooms := [("r1", { is_active := some true, host_tokens := some tokensOk })],
               playback := [] } }

/-- Tick at t = 5000 observing `stateA5`; tokens valid, store healthy. -/
def envC1 : TickEnv :=
  { now := 5000, upstream := .item stateA5, storeFails := false, refreshResult := none }

/-- Tick at t = 5000 whose upstream API call throws. -/
def envErr : TickEnv :=
  { now := 5000, upstream := .apiError, storeFails := false, refreshResult := none }

/-- Tick at t = 1000 observing `stateA1`; tokens valid, store healthy. -/
def envC5 : TickEnv :=
  { now := 1000, upstream := .item stateA1, storeFails := false, refreshResult := none }

/-- Same poller state as `st0` but with 4 accumulated consecutive errors. -/
def roomA4 : ActiveRoom := { roomA with consecutiveErrors := 4 }

def st4 : PollerState := { st0 with activeRooms := [("r1", roomA4)] }

/-- The synthesized paused state a tick at t = 5000 publishes when upstream
reports no playback while the last observation was playing. -/
def pausedA : PlaybackState := { stateA0 with is_playing := false, updated_at := 5000 }

def conn1 : WsConn :=
  { id := "c1", roomId := "r", userId := "u1", role := .viewer,
    readyState := 1, sendOk := true }

def conn2 : WsConn :=
  { id := "c2", roomId := "r", userId := "u2", role := .viewer,
    readyState := 1, sendOk := true }

/-- Registry after `conn1` registered into an empty registry while its
`subscribeToRoom` call rejected (e.g. the Redis subscriber connection was
down for that await). -/
def wsStFail : WsState := (handleConnection wsInit conn1 false).1

/-! ### Claim C1 -/

/-- C1 counterexample: a tick that observes the same track still playing with
its position advanced exactly by the elapsed wall-clock time (5000 ms after
the last observation) is NOT flagged by the spec's elapsed-time-adjusted
change-detection policy, yet the code publishes a NOW_PLAYING event,
because `hasStateChanged` compares raw positions (5000 > 2000 ms).  So the
claimed "publish iff the elapsed-time policy flags a difference" is false. -/
theorem pollRoom_elapsed_policy_cex :
    specHasStateChanged (some stateA0) stateA5 envC1.now = false ∧
    (pollRoom envC1 "r1" st0).2 = [PollEvent.nowPlaying "r1" stateA5] := by
  constructor
  · decide
  · decide

/-- C1 (amended): on a successful-read tick with valid credentials and a
healthy store, a NOW_PLAYING event is published iff the source's
change-detection `hasStateChanged` flags the new observation — track uri
differs, playing flag differs, or the raw position difference (no
elapsed-time adjustment) exceeds 2000 ms. -/
theorem pollRoom_publish_iff_hasStateChanged (env : TickEnv) (roomId : String)
    (st : PollerState) (activeRoom : ActiveRoom) (s : PlaybackState)
    (hroom : lookupKey st.activeRooms roomId = some activeRoom)
    (hfresh : env.now < activeRoom.hostTokens.expires_at)
    (hread : env.upstream = .item s)
    (hstore : env.storeFails = false) :
    (pollRoom env roomId st).2 ≠ [] ↔ hasStateChanged activeRoom.lastState s = true := by
  unfold pollRoom
  rw [hroom]
  simp only [hread, hstore, getCurrentPlaybackState, Nat.not_le.mpr hfresh, if_false]
  cases h : hasStateChanged activeRoom.lastState s <;> simp [h]

/-- C1 witness: the theorem applied at the concrete counterexample tick. -/
theorem pollRoom_publish_iff_hasStateChanged_witness :
    (pollRoom envC1 "r1" st0).2 ≠ [] :=
  (pollRoom_publish_iff_hasStateChanged envC1 "r1" st0 roomA stateA5
    (by decide) (by decide) (by decide) (by decide)).mpr (by decide)

/-! ### Claim C2 -/

/-- C2: at the failing input — a tick whose upstream playback read throws
while the room's last observation was "playing" — the code publishes a
synthesized paused NOW_PLAYING event and leaves the consecutive-error
counter at 0: `SpotifyService.getCurrentPlaybackState` catches the error
and returns `null`, so the poller's catch block (the only place the counter
is incremented) is never reached by an upstream read failure. -/
theorem pollRoom_upstream_error_swallowed :
    (pollRoom envErr "r1" st0).2 = [PollEvent.nowPlaying "r1" pausedA] ∧
    (lookupKey (pollRoom envErr "r1" st0).1.activeRooms "r1").map
        ActiveRoom.consecutiveErrors = some 0 := by
  constructor
  · decide
  · decide

/-! ### Claim C3 -/

/-- C3: at the failing input — a store whose active set is \x7b r1 \x7d and a
running poller for r1 — one supervisor reconciliation pass cancels the r1
poller and starts nothing, because `getActiveRoomIds` returns the empty
list without consulting the store; the resulting poller set is empty and
differs from the store's active set. -/
theorem pollActiveRooms_stub_empties_pollers :
    (pollActiveRooms envC1 st0).1.activeRooms = [] ∧
    (pollActiveRooms envC1 st0).2 = [] ∧
    storeActiveRoomIds (pollActiveRooms envC1 st0).1.store = ["r1"] := by
  refine ⟨?_, ?_, ?_⟩ <;> decide

/-! ### Claim C5 -/

/-- C5 counterexample: a successful tick (upstream read returns a state)
whose observation is within tolerance of the last one does NOT reset the
consecutive-error counter — it stays at 4 — because the reset sits inside
the `hasStateChanged` branch. -/
theorem pollRoom_success_no_reset_cex :
    getCurrentPlaybackState envC5.upstream = some stateA1 ∧
    hasStateChanged (some stateA0) stateA1 = false ∧
    (lookupKey (pollRoom envC5 "r1" st4).1.activeRooms "r1").map
        ActiveRoom.consecutiveErrors = some 4 := by
  refine ⟨?_, ?_, ?_⟩ <;> decide

/-- C5 (amended): a successful tick with valid credentials and a healthy
store resets the consecutive-error counter to zero exactly when the
change-detection policy flags the new observation; an unchanged successful
tick leaves the counter untouched. -/
theorem pollRoom_reset_only_on_change (env : TickEnv) (roomId : String)
    (st : PollerState) (activeRoom : ActiveRoom) (s : PlaybackState)
    (hroom : lookupKey st.activeRooms roomId = some activeRoom)
    (hfresh : env.now < activeRoom.hostTokens.expires_at)
    (hread : env.upstream = .item s)
    (hstore : env.storeFails = false) :
    (hasStateChanged activeRoom.lastState s = true →
      (lookupKey (pollRoom env roomId st).1.activeRooms roomId).map
          ActiveRoom.consecutiveErrors = some 0) ∧
    (hasStateChanged activeRoom.lastState s = false →
      (lookupKey (pollRoom env roomId st).1.activeRooms roomId).map
          ActiveRoom.consecutiveErrors = some activeRoom.consecutiveErrors) := by
  unfold pollRoom
  rw [hroom]
  simp only [hread, hstore, getCurrentPlaybackState, Nat.not_le.mpr hfresh, if_false]
  constructor
  · intro h
    simp [h, lookupKey_setKey_self]
  · intro h
    simp [h, hroom]

/-- C5 witness: the amended theorem applied at the concrete unchanged tick,
where the counter stays at 4. -/
theorem pollRoom_reset_only_on_change_witness :
    (lookupKey (pollRoom envC5 "r1" st4).1.activeRooms "r1").map
        ActiveRoom.consecutiveErrors = some 4 :=
  (pollRoom_reset_only_on_change envC5 "r1" st4 roomA4 stateA1
    (by decide) (by decide) (by decide) (by decide)).2 (by decide)

/-! ### Claim C8 -/

/-- A tick for a room with no `ActiveRoom` entry does nothing: the poller
returns before touching the upstream or the store. -/
theorem pollRoom_not_active (env : TickEnv) (roomId : String) (st : PollerState)
    (h : lookupKey st.activeRooms roomId = none) :
    pollRoom env roomId st = (st, []) := by
  unfold pollRoom
  rw [h]

/-- C8: a tick that begins with expired credentials publishes nothing and
attempts a refresh before any upstream read; on refresh success the new
tokens are persisted to the store (`hSet`, so even when the room's hash has
expired) and kept in the `ActiveRoom` for the following ticks, and on
refresh failure the poller entry is removed, the room is marked inactive in
the store, and every later tick for the room is a no-op. -/
theorem pollRoom_expired_tokens_refresh (env : TickEnv) (roomId : String)
    (st : PollerState) (activeRoom : ActiveRoom)
    (hroom : lookupKey st.activeRooms roomId = some activeRoom)
    (hexp : env.now ≥ activeRoom.hostTokens.expires_at) :
    (pollRoom env roomId st).2 = [] ∧
    (∀ t, env.refreshResult = some t →
      lookupKey (pollRoom env roomId st).1.activeRooms roomId =
        some { activeRoom with hostTokens := t } ∧
      storedHostTokens (pollRoom env roomId st).1.store roomId = some t) ∧
    (env.refreshResult = none →
      lookupKey (pollRoom env roomId st).1.activeRooms roomId = none ∧
      storedIsActive (pollRoom env roomId st).1.store roomId = some false ∧
      ∀ env' : TickEnv, pollRoom env' roomId (pollRoom env roomId st).1 =
        ((pollRoom env roomId st).1, [])) := by
  have hres : pollRoom env roomId st = (refreshHostTokens env roomId activeRoom st, []) := by
    unfold pollRoom
    rw [hroom]
    simp [hexp]
  rw [hres]
  refine ⟨rfl, ?_, ?_⟩
  · intro t ht
    unfold refreshHostTokens
    rw [ht]
    refine ⟨lookupKey_setKey_self _ _ _, ?_⟩
    simp [storeSetHostTokens, storedHostTokens, lookupKey_setKey_self]
  · intro hn
    unfold refreshHostTokens
    rw [hn]
    refine ⟨?_, ?_, ?_⟩
    · simp [removeRoom, lookupKey_eraseKey_self]
    · simp [removeRoom, storeMarkInactive, storedIsActive, lookupKey_setKey_self]
    · intro env'
      apply pollRoom_not_active
      simp [removeRoom, lookupKey_eraseKey_self]

/-- Tokens that are already expired at t = 1000. -/
def tokensExp : SpotifyTokens :=
  { access_token := "at", refresh_token := "rt", expires_at := 1000 }

/-- The refreshed pair returned by `refreshTokens`. -/
def tokensNew : SpotifyTokens :=
  { access_token := "at2", refresh_token := "rt", expires_at := 4601000 }

def roomExp : ActiveRoom :=
  { roomId := "r1", hostTokens := tokensExp, lastState := some stateA0,
    consecutiveErrors := 0 }

def stExp : PollerState :=
  { activeRooms := [("r1", roomExp)],
    store := { rooms := [("r1", { is_active := some true, host_tokens := some tokensExp })],
               playback := [] } }

/-- Tick at t = 1000 (tokens expired) whose refresh succeeds. -/
def envRef : TickEnv :=
  { now := 1000, upstream := .noItem, storeFails := false,
    refreshResult := some tokensNew }

/-- C8 witness: the theorem applied at the concrete expired-token tick with a
successful refresh — the poller keeps the room with the new tokens. -/
theorem pollRoom_expired_tokens_refresh_witness :
    lookupKey (pollRoom envRef "r1" stExp).1.activeRooms "r1" =
      some { roomExp with hostTokens := tokensNew } :=
  ((pollRoom_expired_tokens_refresh envRef "r1" stExp roomExp
    (by decide) (by decide)).2.1 tokensNew (by decide)).1

/-! ### Registry helper lemmas -/

theorem lookupKey_eraseKey_none {α : Type} (l : List (String × α)) (k cid : String)
    (h : lookupKey l cid = none) : lookupKey (eraseKey l k) cid = none := by
  by_cases hc : cid = k
  · subst hc
    exact lookupKey_eraseKey_self l cid
  · rw [lookupKey_eraseKey_other l k cid hc]
    exact h

/-- A disconnection never adds a connection to the registry. -/
theorem lookupKey_handleDisconnection_none (st : WsState) (x cid : String)
    (h : lookupKey st.connections cid = none) :
    lookupKey (handleDisconnection st x).connections cid = none := by
  unfold handleDisconnection
  cases hx : lookupKey st.connections x with
  | none => simpa [hx]
  | some conn =>
    cases hrc : lookupKey st.roomConnections conn.roomId with
    | none => simpa [hx, hrc] using lookupKey_eraseKey_none st.connections x cid h
    | some ids =>
      simp only [hx, hrc]
      split
      · exact lookupKey_eraseKey_none st.connections x cid h
      · exact lookupKey_eraseKey_none st.connections x cid h

/-- After disconnecting a connection id, it is gone from the registry. -/
theorem lookupKey_handleDisconnection_self (st : WsState) (cid : String) :
    lookupKey (handleDisconnection st cid).connections cid = none := by
  unfold handleDisconnection
  cases hx : lookupKey st.connections cid with
  | none => simp [hx]
  | some conn =>
    cases hrc : lookupKey st.roomConnections conn.roomId with
    | none => simpa [hx, hrc] using lookupKey_eraseKey_self st.connections cid
    | some ids =>
      simp only [hx, hrc]
      split
      · exact lookupKey_eraseKey_self st.connections cid
      · exact lookupKey_eraseKey_self st.connections cid

theorem lookupKey_foldl_handleDisconnection_none (l : List String) (st : WsState)
    (cid : String) (h : lookupKey st.connections cid = none) :
    lookupKey (l.foldl handleDisconnection st).connections cid = none := by
  induction l generalizing st with
  | nil => exact h
  | cons x xs ih =>
      exact ih (handleDisconnection st x) (lookupKey_handleDisconnection_none st x cid h)

theorem lookupKey_foldl_handleDisconnection_mem (l : List String) (st : WsState)
    (cid : String) (h : cid ∈ l) :
    lookupKey (l.foldl handleDisconnection st).connections cid = none := by
  induction l generalizing st with
  | nil => cases h
  | cons x xs ih =>
      rcases List.mem_cons.mp h with h1 | h2
      · subst h1
        exact lookupKey_foldl_handleDisconnection_none xs _ cid
          (lookupKey_handleDisconnection_self st cid)
      · exact ih (handleDisconnection st x) h2

/-- The send loop and cleanup of `broadcastToRoom`, spelled out when the
room's connection set is known. -/
theorem broadcastToRoom_eq (st : WsState) (roomId : String) (message : WsMessage)
    (ids : List String) (hids : lookupKey st.roomConnections roomId = some ids) :
    broadcastToRoom st roomId message =
      ((ids.filter (fun cid => !(connectionDelivers st cid))).foldl handleDisconnection st,
       (ids.filter (fun cid => connectionDelivers st cid)).map
         (fun cid => WsEffect.send cid message)) := by
  unfold broadcastToRoom
  rw [hids]

/-! ### Claim C9 -/

/-- C9: during one dispatch of an event to a room, every registered
connection whose socket is open and whose send succeeds receives the event,
regardless of any other connection failing; and every registered connection
that fails (closed socket or throwing send) is unregistered by the
dispatch's cleanup and receives nothing. -/
theorem broadcastToRoom_isolation (st : WsState) (roomId : String)
    (message : WsMessage) (ids : List String)
    (hids : lookupKey st.roomConnections roomId = some ids) :
    (∀ cid ∈ ids, connectionDelivers st cid = true →
       WsEffect.send cid message ∈ (broadcastToRoom st roomId message).2) ∧
    (∀ cid ∈ ids, connectionDelivers st cid = false →
       lookupKey (broadcastToRoom st roomId message).1.connections cid = none ∧
       WsEffect.send cid message ∉ (broadcastToRoom st roomId message).2) := by
  rw [broadcastToRoom_eq st roomId message ids hids]
  constructor
  · intro cid hmem hdel
    exact List.mem_map.mpr ⟨cid, List.mem_filter.mpr ⟨hmem, hdel⟩, rfl⟩
  · intro cid hmem hdel
    constructor
    · exact lookupKey_foldl_handleDisconnection_mem _ st cid
        (List.mem_filter.mpr ⟨hmem, by simp [hdel]⟩)
    · intro hsend
      obtain ⟨c, hc, hEq⟩ := List.mem_map.mp hsend
      have hcid : c = cid := by
        simpa using hEq
      subst hcid
      have : connectionDelivers st c = true := (List.mem_filter.mp hc).2
      simp [hdel] at this

/-- A room one open/working connection ("cOk") and one connection whose
socket send throws ("cBad"). -/
def connOk : WsConn :=
  { id := "cOk", roomId := "r", userId := "u1", role := .viewer,
    readyState := 1, sendOk := true }

def connBad : WsConn :=
  { id := "cBad", roomId := "r", userId := "u2", role := .viewer,
    readyState := 1, sendOk := false }

def wsStMixed : WsState :=
  { connections := [("cOk", connOk), ("cBad", connBad)],
    roomConnections := [("r", ["cOk", "cBad"])],
    subscribers := [("r", 2)] }

/-- C9 witness: in the concrete room, the failing connection's presence does
not stop delivery to the working one, and the failing connection is gone
from the registry after the dispatch. -/
theorem broadcastToRoom_isolation_witness :
    WsEffect.send "cOk" (WsMessage.control "play" "") ∈
      (broadcastToRoom wsStMixed "r" (WsMessage.control "play" "")).2 ∧
    lookupKey (broadcastToRoom wsStMixed "r"
      (WsMessage.control "play" "")).1.connections "cBad" = none :=
  ⟨(broadcastToRoom_isolation wsStMixed "r" (WsMessage.control "play" "")
      ["cOk", "cBad"] (by decide)).1 "cOk" (by decide) (by decide),
   ((broadcastToRoom_isolation wsStMixed "r" (WsMessage.control "play" "")
      ["cOk", "cBad"] (by decide)).2 "cBad" (by decide) (by decide)).1⟩

/-! ### Claim C7 -/

/-- C7: when the room has a persisted playback state, a SYNC_REQUEST is
answered by exactly one send — a NOW_PLAYING reply to the requesting
connection — so no other connection receives anything from the request. -/
theorem handleSyncRequest_replies_only_requester (st : WsState) (store : StateStore)
    (conn : WsConn) (ps : PlaybackState)
    (h : lookupKey store.playback conn.roomId = some ps) :
    handleSyncRequest st store conn =
      [WsEffect.send conn.id (WsMessage.nowPlaying ps)] := by
  unfold handleSyncRequest
  rw [h]

/-- Store holding a persisted playback state for room "r". -/
def storeWithPlayback : StateStore :=
  { rooms := [], playback := [("r", stateA0)] }

/-- C7 witness: the theorem applied at the concrete store and connection. -/
theorem handleSyncRequest_replies_only_requester_witness :
    handleSyncRequest wsStMixed storeWithPlayback connOk =
      [WsEffect.send "cOk" (WsMessage.nowPlaying stateA0)] :=
  handleSyncRequest_replies_only_requester wsStMixed storeWithPlayback connOk stateA0
    (by decide)

/-! ### Claim C10 -/

/-- C10: when the state store has no persisted playback state for the room,
a SYNC_REQUEST produces no reply at all — no empty state, no error
message. -/
theorem handleSyncRequest_no_state_no_reply (st : WsState) (store : StateStore)
    (conn : WsConn) (h : lookupKey store.playback conn.roomId = none) :
    handleSyncRequest st store conn = [] := by
  unfold handleSyncRequest
  rw [h]

/-- C10 witness: the theorem applied at a store with no playback entry. -/
theorem handleSyncRequest_no_state_no_reply_witness :
    handleSyncRequest wsStMixed { rooms := [], playback := [] } connOk = [] :=
  handleSyncRequest_no_state_no_reply wsStMixed { rooms := [], playback := [] } connOk
    (by decide)

/-! ### Claim C6 -/

/-- C6: a CONTROL message from a viewer connection is dropped — no send to
anyone, no registry change, the connection is not closed; a CONTROL message
from a host connection is broadcast to every registered connection of the
room (all assumed open and deliverable here; C9 covers failing sockets),
including back to the host itself. -/
theorem handleControlMessage_gating (st : WsState) (conn : WsConn)
    (action data : String) :
    (conn.role = Role.viewer → handleControlMessage st conn action data = (st, [])) ∧
    (conn.role = Role.host → ∀ ids, lookupKey st.roomConnections conn.roomId = some ids →
      (∀ cid ∈ ids, connectionDelivers st cid = true) →
      (handleControlMessage st conn action data).1 = st ∧
      (handleControlMessage st conn action data).2 =
        ids.map (fun cid => WsEffect.send cid (WsMessage.control action data)) ∧
      (conn.id ∈ ids → WsEffect.send conn.id (WsMessage.control action data) ∈
        (handleControlMessage st conn action data).2)) := by
  constructor
  · intro hv
    unfold handleControlMessage
    rw [hv]
    simp
  · intro hh ids hids hall
    unfold handleControlMessage
    rw [hh, if_neg (fun h => h rfl)]
    rw [broadcastToRoom_eq st conn.roomId (WsMessage.control action data) ids hids]
    have hdel : ids.filter (fun cid => connectionDelivers st cid) = ids :=
      List.filter_eq_self.mpr hall
    have hdisc : ids.filter (fun cid => !(connectionDelivers st cid)) = [] :=
      List.filter_eq_nil_iff.mpr (fun a ha => by simp [hall a ha])
    rw [hdel, hdisc]
    exact ⟨rfl, rfl, fun hmem => List.mem_map.mpr ⟨conn.id, hmem, rfl⟩⟩

/-- The host connection of room "r", open and deliverable. -/
def connHost : WsConn :=
  { id := "cHost", roomId := "r", userId := "uh", role := .host,
    readyState := 1, sendOk := true }

/-- Room "r" with the host and one viewer, both open and deliverable. -/
def wsStHosted : WsState :=
  { connections := [("cHost", connHost), ("cOk", connOk)],
    roomConnections := [("r", ["cHost", "cOk"])],
    subscribers := [("r", 2)] }

/-- C6 witness: in the concrete room, a viewer CONTROL is dropped and a host
CONTROL reaches both registered connections, the host included. -/
theorem handleControlMessage_gating_witness :
    handleControlMessage wsStHosted connOk "pause" "" = (wsStHosted, []) ∧
    (handleControlMessage wsStHosted connHost "pause" "").2 =
      [WsEffect.send "cHost" (WsMessage.control "pause" ""),
       WsEffect.send "cOk" (WsMessage.control "pause" "")] :=
  ⟨(handleControlMessage_gating wsStHosted connOk "pause" "").1 (by decide),
   ((handleControlMessage_gating wsStHosted connHost "pause" "").2 (by decide)
      ["cHost", "cOk"] (by decide) (by decide)).2.1⟩

/-! ### Claim C4 -/

theorem mem_addToSet (l : List String) (x y : String) :
    y ∈ addToSet l x ↔ y ∈ l ∨ y = x := by
  unfold addToSet
  by_cases h : x ∈ l
  · simp only [if_pos h]
    exact ⟨Or.inl, fun hy => hy.elim id (fun he => he ▸ h)⟩
  · simp [if_neg h]

theorem addToSet_ne_nil (l : List String) (x : String) : addToSet l x ≠ [] := by
  unfold addToSet
  by_cases h : x ∈ l
  · simp only [if_pos h]
    intro hl
    rw [hl] at h
    cases h
  · simp [if_neg h]

/-- The room set `handleConnection` installs for the new connection's room. -/
def connectRoomIds (st : WsState) (conn : WsConn) : List String :=
  match lookupKey st.roomConnections conn.roomId with
  | none => addToSet [] conn.id
  | some ids => addToSet ids conn.id

theorem handleConnection_state_eq_ok (st : WsState) (conn : WsConn) :
    (handleConnection st conn true).1 =
      { connections := setKey st.connections conn.id conn,
        roomConnections := setKey st.roomConnections conn.roomId (connectRoomIds st conn),
        subscribers := addListener st.subscribers conn.roomId } := rfl

theorem handleConnection_state_eq_fail (st : WsState) (conn : WsConn) :
    (handleConnection st conn false).1 =
      { connections := setKey st.connections conn.id conn,
        roomConnections := setKey st.roomConnections conn.roomId (connectRoomIds st conn),
        subscribers := st.subscribers } := rfl

theorem handleConnection_effects_ok (st : WsState) (conn : WsConn) :
    (handleConnection st conn true).2 =
      [WsEffect.subscribeRoom conn.roomId,
       WsEffect.send conn.id (WsMessage.connected conn.id conn.roomId)] := rfl

theorem connectRoomIds_ne_nil (st : WsState) (conn : WsConn) :
    connectRoomIds st conn ≠ [] := by
  unfold connectRoomIds
  cases lookupKey st.roomConnections conn.roomId
  · exact addToSet_ne_nil _ _
  · exact addToSet_ne_nil _ _

theorem handleDisconnection_eq_none (st : WsState) (cid : String)
    (hx : lookupKey st.connections cid = none) :
    handleDisconnection st cid = st := by
  unfold handleDisconnection
  rw [hx]

theorem handleDisconnection_eq_noroom (st : WsState) (cid : String) (conn : WsConn)
    (hx : lookupKey st.connections cid = some conn)
    (hrc : lookupKey st.roomConnections conn.roomId = none) :
    handleDisconnection st cid = { st with connections := eraseKey st.connections cid } := by
  simp only [handleDisconnection, hx, hrc]

theorem handleDisconnection_eq_empty (st : WsState) (cid : String) (conn : WsConn)
    (ids : List String)
    (hx : lookupKey st.connections cid = some conn)
    (hrc : lookupKey st.roomConnections conn.roomId = some ids)
    (hids : ids.filter (fun c => c ≠ cid) = []) :
    handleDisconnection st cid =
      { connections := eraseKey st.connections cid,
        roomConnections := eraseKey st.roomConnections conn.roomId,
        subscribers := eraseKey st.subscribers conn.roomId } := by
  simp only [handleDisconnection, hx, hrc, hids, if_pos]

theorem handleDisconnection_eq_rest (st : WsState) (cid : String) (conn : WsConn)
    (ids : List String)
    (hx : lookupKey st.connections cid = some conn)
    (hrc : lookupKey st.roomConnections conn.roomId = some ids)
    (hids : ids.filter (fun c => c ≠ cid) ≠ []) :
    handleDisconnection st cid =
      { st with
          connections := eraseKey st.connections cid,
          roomConnections :=
            setKey st.roomConnections conn.roomId (ids.filter (fun c => c ≠ cid)) } := by
  simp only [handleDisconnection, hx, hrc, if_neg hids]

/-- Every state reachable through registrations whose subscribe resolves and
through disconnections satisfies the subscription-lifecycle invariant. -/
theorem reachable_subscription_invariant (st : WsState) (hr : ReachableOk st) :
    SubscriptionInvariant st := by
  induction hr with
  | init =>
      intro roomId
      simp [wsInit, lookupKey, listenersFor]
  | connect st0 conn hr0 ih =>
      intro roomId
      rw [handleConnection_state_eq_ok]
      by_cases hroom : roomId = conn.roomId
      · subst hroom
        constructor
        · intro _
          exact ⟨_, lookupKey_setKey_self _ _ _, connectRoomIds_ne_nil st0 conn⟩
        · intro _
          simp only [listenersFor, addListener]
          rw [lookupKey_setKey_self]
          exact Nat.succ_pos _
      · simp only [listenersFor, addListener]
        rw [lookupKey_setKey_other _ _ _ _ hroom, lookupKey_setKey_other _ _ _ _ hroom]
        exact ih roomId
  | disconnect st0 cid hr0 ih =>
      intro roomId
      cases hx : lookupKey st0.connections cid with
      | none =>
          rw [handleDisconnection_eq_none st0 cid hx]
          exact ih roomId
      | some conn =>
        cases hrc : lookupKey st0.roomConnections conn.roomId with
        | none =>
            rw [handleDisconnection_eq_noroom st0 cid conn hx hrc]
            exact ih roomId
        | some ids =>
          by_cases hids : ids.filter (fun c => c ≠ cid) = []
          · rw [handleDisconnection_eq_empty st0 cid conn ids hx hrc hids]
            by_cases hroom : roomId = conn.roomId
            · subst hroom
              simp [listenersFor, lookupKey_eraseKey_self]
            · simp only [listenersFor]
              rw [lookupKey_eraseKey_other _ _ _ hroom, lookupKey_eraseKey_other _ _ _ hroom]
              exact ih roomId
          · rw [handleDisconnection_eq_rest st0 cid conn ids hx hrc hids]
            by_cases hroom : roomId = conn.roomId
            · subst hroom
              constructor
              · intro _
                exact ⟨_, lookupKey_setKey_self _ _ _, hids⟩
              · intro _
                refine (ih conn.roomId).mpr ⟨ids, hrc, ?_⟩
                intro h0
                subst h0
                exact hids rfl
            · rw [lookupKey_setKey_other _ _ _ _ hroom]
              exact ih roomId

/-- C4 counterexample: `handleConnection` registers the connection in both
maps (websocket/index.ts:47-53) before awaiting `redis.subscribeToRoom`
(line 56); when that call rejects, the catch (line 100) closes the socket
without any registry cleanup, because the close handler (line 90) was never
attached.  The resulting reachable state has room "r" with a registered
connection and zero pub/sub listeners, so "a room's subscription exists iff
at least one connection is registered" is false of the code. -/
theorem handleConnection_subscribe_failure_cex :
    lookupKey wsStFail.roomConnections "r" = some ["c1"] ∧
    listenersFor wsStFail "r" = 0 := by
  constructor
  · decide
  · decide

/-- C4 (amended): in runs where every `subscribeToRoom` call resolves, each
reachable registry state has a room's channel carrying at least one
listener iff at least one connection is registered for that room, and
registering a single connection into a room with no connections and then
immediately disconnecting it leaves the room's channel with zero listeners;
however the subscribe call is issued on every registration — stacking one
more listener each time — not only on the first, and a rejected subscribe
leaves a registered connection behind with no subscription. -/
theorem registry_subscription_lifecycle (st : WsState) (hr : ReachableOk st) :
    SubscriptionInvariant st ∧
    (∀ conn : WsConn, lookupKey st.roomConnections conn.roomId = none →
      listenersFor
        (handleDisconnection (handleConnection st conn true).1 conn.id) conn.roomId = 0) ∧
    (∀ conn : WsConn,
      WsEffect.subscribeRoom conn.roomId ∈ (handleConnection st conn true).2) := by
  refine ⟨reachable_subscription_invariant st hr, ?_, ?_⟩
  · intro conn hnone
    have hx : lookupKey (handleConnection st conn true).1.connections conn.id = some conn := by
      rw [handleConnection_state_eq_ok]
      exact lookupKey_setKey_self _ _ _
    have hone : connectRoomIds st conn = [conn.id] := by
      unfold connectRoomIds
      rw [hnone]
      simp [addToSet]
    have hrc : lookupKey (handleConnection st conn true).1.roomConnections conn.roomId =
        some [conn.id] := by
      rw [handleConnection_state_eq_ok, ← hone]
      exact lookupKey_setKey_self _ _ _
    have hids : ([conn.id].filter (fun c => c ≠ conn.id)) = [] := by simp
    rw [handleDisconnection_eq_empty (handleConnection st conn true).1 conn.id conn
      [conn.id] hx hrc hids]
    simp [listenersFor, lookupKey_eraseKey_self]
  · intro conn
    rw [handleConnection_effects_ok]
    simp

/-- C4 witness: the theorem applied at the initial (empty, reachable)
registry — registering `conn1` into empty room "r" with a successful
subscribe and then disconnecting it leaves zero listeners on "r". -/
theorem registry_subscription_lifecycle_witness :
    listenersFor
      (handleDisconnection (handleConnection wsInit conn1 true).1 conn1.id)
      conn1.roomId = 0 :=
  (registry_subscription_lifecycle wsInit ReachableOk.init).2.1 conn1 rfl

end TuneWithMe
